import Mathlib

/-!
ProductImageUploader: a shallow embedding of `src/ProductImageUploader.jsx`: the component state held in
the five `useState` cells, the file-input handler `handleFileChange`, the upload
handler `handleUpload` and its helper `safeError`, and the disabled condition of
the upload button.

The browser and the network are the environment of the component.  They enter the
model as explicit parameters (`Browser`): `URL.createObjectURL`, `JSON.parse` and
`fetch`.  An `async` handler is a function on a `World`: the component state, the
HTTP requests issued so far, the arguments `onUploaded` has been called with, and
the component state as it stood at every `await` of the handler.
-/

namespace ProductImageUploader

/-! ## JavaScript values -/

/-- A JavaScript value as the component meets it: `undefined`, `null`, a boolean,
a number, a string, an array or a plain object (the values `JSON.parse` produces,
plus `undefined`).  Numbers are the integers; a number with a fractional part is
outside the model.  An object is the list of its own properties, keys distinct. -/
inductive JsVal where
  | undefined : JsVal
  | null : JsVal
  | bool (b : Bool) : JsVal
  | num (n : Int) : JsVal
  | str (s : String) : JsVal
  | arr (items : List JsVal) : JsVal
  | obj (props : List (String × JsVal)) : JsVal

/-- A thrown value: an `Error` object, observed through its `message`. -/
structure JsError where
  message : String
deriving DecidableEq, Repr

/-- ToBoolean: `undefined`, `null`, `false`, `0` and the empty string are falsy, every other
value (every array and object included) is truthy. -/
def JsVal.truthy : JsVal → Bool
  | .undefined => false
  | .null => false
  | .bool b => b
  | .num n => n != 0
  | .str s => s != ""
  | .arr _ => true
  | .obj _ => true

/-- Own-property lookup in a property list. -/
def lookupProp (key : String) : List (String × JsVal) → JsVal
  | [] => .undefined
  | (k, v) :: rest => if k = key then v else lookupProp key rest

/-- Whether a property list has the own key `key`. -/
def hasProp (key : String) : List (String × JsVal) → Bool
  | [] => false
  | (k, _) :: rest => k = key || hasProp key rest

/-- The property read `v.key` for a key that no built-in prototype defines (such
as `error`, `detail`): a `TypeError` on `undefined` and `null`, the own property
of an object, `undefined` on every primitive and on an array. -/
def JsVal.getProp (v : JsVal) (key : String) : Except JsError JsVal :=
  match v with
  | .undefined => .error ⟨"Cannot read properties of undefined"⟩
  | .null => .error ⟨"Cannot read properties of null"⟩
  | .obj props => .ok (lookupProp key props)
  | _ => .ok .undefined

/-- ToString of one item of `Array.prototype.join`: `undefined` and `null` render
as the empty string. -/
def itemOr (v : JsVal) (r : Except JsError String) : Except JsError String :=
  match v with
  | .undefined => .ok ""
  | .null => .ok ""
  | _ => r

mutual
/-- ToString of a value, as the `Error` constructor and a template literal apply
it.  An object converts through `Object.prototype.toString`; an object that has
an own `toString` property (never callable in a `JSON.parse` result) has no
primitive value and the conversion throws a `TypeError`.  The decimal numeral of a
number is exact below 10^21 in magnitude. -/
def JsVal.toStr : JsVal → Except JsError String
  | .undefined => .ok "undefined"
  | .null => .ok "null"
  | .bool b => .ok (if b then "true" else "false")
  | .num n => .ok (toString n)
  | .str s => .ok s
  | .arr items => JsVal.joinStr items
  | .obj props =>
    if hasProp "toString" props then .error ⟨"Cannot convert object to primitive value"⟩
    else .ok "[object Object]"
termination_by structural v => v
/-- The `Array.prototype.join` of the items, with a comma as separator. -/
def JsVal.joinStr : List JsVal → Except JsError String
  | [] => .ok ""
  | x :: rest =>
    match itemOr x (JsVal.toStr x) with
    | .error e => .error e
    | .ok a =>
      match rest with
      | [] => .ok a
      | _ :: _ =>
        match JsVal.joinStr rest with
        | .error e => .error e
        | .ok b => .ok (a ++ "," ++ b)
termination_by structural l => l
end

/-! ## Data model -/

/-- A `File` picked in the file input: name, MIME type and size in bytes. -/
structure File where
  name : String
  type : String
  size : Nat
deriving DecidableEq, Repr

/-- The `change` event of the file input, reduced to `e.target.files`: `null`
or the list of picked files. -/
structure ChangeEvent where
  files : Option (List File)
deriving DecidableEq, Repr

/-- The five `useState` cells of the component. -/
structure State where
  file : Option File
  previewUrl : String
  isUploading : Bool
  error : String
  success : String
deriving DecidableEq, Repr

/-- The initial values of the `useState` cells. -/
def State.initial : State :=
  { file := none, previewUrl := "", isUploading := false, error := "", success := "" }

/-- The request `handleUpload` passes to `fetch`: method, URL, the
`Authorization` header and the one part of the multipart body (`form`). -/
structure Request where
  method : String
  url : String
  authorization : String
  form : List (String × File)
deriving DecidableEq, Repr

/-- A `Response`: its status and what reading its body (`res.text()`) settles
to, the text or a rejection. -/
structure Response where
  status : Nat
  body : Except JsError String

/-- The `res.ok` flag: the status is in the range 200 to 299. -/
def Response.ok (res : Response) : Bool :=
  decide (200 ≤ res.status) && decide (res.status ≤ 299)

/-- The call `res.text()`. -/
def Response.text (res : Response) : Except JsError String :=
  res.body

/-- The call `res.json()`: read the body, then parse it. -/
def Response.json (parse : String → Except JsError JsVal) (res : Response) :
    Except JsError JsVal :=
  match res.body with
  | .error e => .error e
  | .ok t => parse t

/-- The platform the component runs on: `URL.createObjectURL`, `JSON.parse`
and `fetch` (a rejected promise is `Except.error`). -/
structure Browser where
  createObjectURL : File → String
  jsonParse : String → Except JsError JsVal
  fetch : Request → Except JsError Response

/-- The props of the component after the destructuring defaults are applied.
`token` is a string or `null`; `onUploaded` is `none` when
the `typeof onUploaded` test for a function is false. -/
structure Props where
  productId : JsVal
  apiBaseUrl : String
  token : Option String
  onUploaded : Option (JsVal → Except JsError Unit)

/-- The default of the `apiBaseUrl` prop. -/
def defaultApiBaseUrl : String := "https://internaloox-1.onrender.com/api"

/-- What one run of an `async` handler acts on: the component state, the
requests passed to `fetch`, the arguments `onUploaded` was called with, and the
component state at each `await` (what is on screen while the handler waits). -/
structure World where
  state : State
  requests : List Request
  uploaded : List JsVal
  pending : List State

/-- The result of running a handler: whether it returned or threw, and the
world it left. -/
abbrev Outcome := Except JsError Unit × World

/-- The setter `setIsUploading`. -/
def World.setIsUploading (v : Bool) (w : World) : World :=
  { w with state := { w.state with isUploading := v } }

/-- The setter `setError`. -/
def World.setError (v : String) (w : World) : World :=
  { w with state := { w.state with error := v } }

/-- The setter `setSuccess`. -/
def World.setSuccess (v : String) (w : World) : World :=
  { w with state := { w.state with success := v } }

/-- An `await`: the handler is suspended and the current state is on screen. -/
def World.await (w : World) : World :=
  { w with pending := w.pending ++ [w.state] }

/-- Passing a request to `fetch`. -/
def World.issue (req : Request) (w : World) : World :=
  { w with requests := w.requests ++ [req] }

/-- Calling `onUploaded(data)`. -/
def World.call (data : JsVal) (w : World) : World :=
  { w with uploaded := w.uploaded ++ [data] }

/-- A `try { body } catch (e) { handler }` block. -/
def tryCatchW (body : World → Outcome) (handler : JsError → World → Outcome)
    (w : World) : Outcome :=
  match body w with
  | (.ok a, w1) => (.ok a, w1)
  | (.error e, w1) => handler e w1

/-- A `try { body } finally { finalizer }` block whose finalizer is a setter. -/
def tryFinallyW (body : World → Outcome) (finalizer : World → World)
    (w : World) : Outcome :=
  match body w with
  | (r, w1) => (r, finalizer w1)

/-! ## The handlers -/

/-- The expression `e.target.files && e.target.files[0]`. -/
def ChangeEvent.selected (e : ChangeEvent) : Option File :=
  match e.files with
  | none => none
  | some files => files.head?

/-- The handler `handleFileChange` (lines 16 to 32). -/
def handleFileChange (b : Browser) (e : ChangeEvent) (s : State) : State :=
  let s1 := { s with error := "" }
  let s2 := { s1 with success := "" }
  match e.selected with
  | none => { s2 with file := none, previewUrl := "" }
  | some selected =>
    if selected.size > 5 * 1024 * 1024 then
      { s2 with error := "File exceeds 5 MB limit" }
    else
      let s3 := { s2 with file := some selected }
      let url := b.createObjectURL selected
      { s3 with previewUrl := url }

/-- A `try { body } catch { handler }` block around a computation that touches
no state. -/
def tryCatchE {α : Type} (body : Except JsError α) (handler : JsError → Except JsError α) :
    Except JsError α :=
  match body with
  | .ok a => .ok a
  | .error e => handler e

/-- The expression `j.error || j.detail || t` of line 70.  The read `j.error`
throws when `j` is `null`. -/
def messageOf (j : JsVal) (t : String) : Except JsError JsVal :=
  match j.getProp "error" with
  | .error e => .error e
  | .ok err =>
    if err.truthy then .ok err
    else
      match j.getProp "detail" with
      | .error e => .error e
      | .ok detail => if detail.truthy then .ok detail else .ok (.str t)

/-- The helper `safeError` (lines 65 to 77). -/
def safeError (parse : String → Except JsError JsVal) (res : Response) :
    Except JsError JsVal :=
  tryCatchE
    (match res.text with
     | .error e => .error e
     | .ok t =>
       tryCatchE
         (match parse t with
          | .error e => .error e
          | .ok j => messageOf j t)
         (fun _ => .ok (.str t)))
    (fun _ => .ok (.str ""))

/-- The value thrown by `throw new Error(v)`: the `Error` whose message is the
ToString of `v`, or the `TypeError` of a failed conversion. -/
def throwNewError (v : JsVal) : JsError :=
  match v.toStr with
  | .ok s => ⟨s⟩
  | .error e => e

/-- The expression of line 59: `e.message`, or `Upload failed` when the message
is empty. -/
def errorMessage (e : JsError) : String :=
  if e.message = "" then "Upload failed" else e.message

/-- The request of line 42 for the stored file and the ToString of `productId`. -/
def uploadRequest (p : Props) (file : File) (pid : String) : Request :=
  { method := "POST"
    url := p.apiBaseUrl ++ "/orders/products/" ++ pid ++ "/upload_main_image/"
    authorization := "Bearer " ++ p.token.getD ""
    form := [("file", file)] }

/-- The `try` block of `handleUpload` (lines 40 to 57). -/
def uploadTry (b : Browser) (p : Props) (file : File) (w : World) : Outcome :=
  match p.productId.toStr with
  | .error e => (.error e, w)
  | .ok pid =>
    let req := uploadRequest p file pid
    let w1 := (w.issue req).await
    match b.fetch req with
    | .error e => (.error e, w1)
    | .ok res =>
      if !res.ok then
        let w2 := w1.await
        match safeError b.jsonParse res with
        | .error e => (.error e, w2)
        | .ok msg =>
          let fallback := JsVal.str ("Upload failed (" ++ toString res.status ++ ")")
          (.error (throwNewError (if msg.truthy then msg else fallback)), w2)
      else
        let w2 := w1.setSuccess "Image uploaded"
        match p.onUploaded with
        | none => (.ok (), w2)
        | some onUploaded =>
          let w3 := w2.await
          match res.json b.jsonParse with
          | .error e => (.error e, w3)
          | .ok data =>
            match onUploaded data with
            | .error e => (.error e, w3.call data)
            | .ok () => (.ok (), w3.call data)

/-- The handler `handleUpload` (lines 34 to 63). -/
def handleUpload (b : Browser) (p : Props) (w : World) : Outcome :=
  match w.state.file with
  | none => (.ok (), w)
  | some file =>
    if !p.productId.truthy then (.ok (), w)
    else
      let w0 := ((w.setIsUploading true).setError "").setSuccess ""
      tryFinallyW
        (tryCatchW (uploadTry b p file)
          (fun e w1 => (.ok (), w1.setError (errorMessage e))))
        (World.setIsUploading false) w0

/-- The `disabled` attribute of the upload button:
`!file || isUploading || !productId`. -/
def buttonDisabled (p : Props) (s : State) : Bool :=
  s.file.isNone || s.isUploading || !p.productId.truthy

/-! ## Example environment -/

/-- A picked image of 1,024 bytes. -/
def smallFile : File := { name := "a.png", type := "image/png", size := 1024 }

/-- A picked image of exactly 5,242,880 bytes. -/
def limitFile : File := { name := "b.png", type := "image/png", size := 5242880 }

/-- A picked image of 5,242,881 bytes. -/
def bigFile : File := { name := "c.png", type := "image/png", size := 5242881 }

/-- A state that holds an earlier selection, an error text and a success text. -/
def busyState : State :=
  { file := some smallFile, previewUrl := "blob:a.png", isUploading := false,
    error := "old error", success := "old success" }

/-- An example `URL.createObjectURL`. -/
def blobUrl (f : File) : String := "blob:" ++ f.name

/-- The success body of the examples. -/
def uploadedBody : String := "\x7b\"id\": 42, \"image_url\": \"https://x/y.jpg\"\x7d"

/-- The value `JSON.parse` gives on `uploadedBody`. -/
def uploadedData : JsVal := .obj [("id", .num 42), ("image_url", .str "https://x/y.jpg")]

/-- A failure body with a `detail` field only. -/
def detailBody : String := "\x7b\"detail\": \"bad format\"\x7d"

/-- A failure body whose `error` field is the boolean `true`. -/
def flaggedBody : String := "\x7b\"error\": true, \"detail\": \"bad format\"\x7d"

/-- A failure body with an `error` and a `detail` field, both strings. -/
def bothBody : String := "\x7b\"error\": \"too large\", \"detail\": \"bad format\"\x7d"

/-- The result of `JSON.parse` on the bodies used in the examples below.  On
each text compared here it is what `JSON.parse` gives; every other text the
examples use is not JSON and gets the parse error. -/
def exampleParse (t : String) : Except JsError JsVal :=
  if t = uploadedBody then .ok uploadedData
  else if t = detailBody then .ok (.obj [("detail", .str "bad format")])
  else if t = bothBody then
    .ok (.obj [("error", .str "too large"), ("detail", .str "bad format")])
  else if t = flaggedBody then
    .ok (.obj [("error", .bool true), ("detail", .str "bad format")])
  else if t = "" then .error ⟨"Unexpected end of JSON input"⟩
  else .error ⟨"Unexpected token in JSON at position 0"⟩

/-- A browser whose `fetch` settles to `outcome` for every request. -/
def exampleBrowser (outcome : Except JsError Response) : Browser :=
  { createObjectURL := blobUrl, jsonParse := exampleParse, fetch := fun _ => outcome }

/-- The world at the click on the upload button: `smallFile` is stored, nothing
has been requested yet. -/
def readyWorld : World :=
  { state := { file := some smallFile, previewUrl := "blob:a.png", isUploading := false,
               error := "", success := "" },
    requests := [], uploaded := [], pending := [] }

/-- Props for product 7 with a token and the given completion callback. -/
def exampleProps (onUploaded : Option (JsVal → Except JsError Unit)) : Props :=
  { productId := .num 7, apiBaseUrl := defaultApiBaseUrl, token := some "t0k",
    onUploaded := onUploaded }

/-! ## File selection -/

/-- C1: for every state and every file-pick event whose chosen file
(`e.target.files[0]`) is larger than 5,242,880 bytes, `handleFileChange` ends
with the error text `File exceeds 5 MB limit`, which is not empty, and the
stored file and the preview are what they were before the event. -/
theorem handleFileChange_oversize (b : Browser) (s : State) (f : File) (rest : List File)
    (hbig : f.size > 5242880) :
    (handleFileChange b ⟨some (f :: rest)⟩ s).error = "File exceeds 5 MB limit" ∧
    (handleFileChange b ⟨some (f :: rest)⟩ s).error ≠ "" ∧
    (handleFileChange b ⟨some (f :: rest)⟩ s).file = s.file ∧
    (handleFileChange b ⟨some (f :: rest)⟩ s).previewUrl = s.previewUrl := by
  have h : f.size > 5 * 1024 * 1024 := by omega
  simp [handleFileChange, ChangeEvent.selected, h]

/-- C1 at a concrete input: a 5,242,881 byte file picked over an earlier
selection leaves that selection and its preview in place. -/
theorem handleFileChange_oversize_witness :
    bigFile.size > 5242880 ∧
    (handleFileChange (exampleBrowser (.error ⟨""⟩)) ⟨some [bigFile]⟩ busyState).error
      = "File exceeds 5 MB limit" ∧
    (handleFileChange (exampleBrowser (.error ⟨""⟩)) ⟨some [bigFile]⟩ busyState).file
      = some smallFile ∧
    (handleFileChange (exampleBrowser (.error ⟨""⟩)) ⟨some [bigFile]⟩ busyState).previewUrl
      = "blob:a.png" :=
  ⟨by decide,
   (handleFileChange_oversize _ busyState bigFile [] (by decide)).1,
   (handleFileChange_oversize _ busyState bigFile [] (by decide)).2.2.1,
   (handleFileChange_oversize _ busyState bigFile [] (by decide)).2.2.2⟩

/-- C2: for every state, whatever error or success text it holds, and every
file-pick event whose chosen file is at most 5,242,880 bytes, `handleFileChange`
ends with both texts empty, the stored file equal to the chosen file and the
preview equal to the object URL created from that file. -/
theorem handleFileChange_accepts (b : Browser) (s : State) (f : File) (rest : List File)
    (hsmall : f.size ≤ 5242880) :
    (handleFileChange b ⟨some (f :: rest)⟩ s).error = "" ∧
    (handleFileChange b ⟨some (f :: rest)⟩ s).success = "" ∧
    (handleFileChange b ⟨some (f :: rest)⟩ s).file = some f ∧
    (handleFileChange b ⟨some (f :: rest)⟩ s).previewUrl = b.createObjectURL f := by
  have h : ¬ f.size > 5 * 1024 * 1024 := by omega
  simp [handleFileChange, ChangeEvent.selected, h]

/-- C2 at a concrete input: a file of exactly 5,242,880 bytes picked in a state
that shows an old error and an old success text. -/
theorem handleFileChange_accepts_witness :
    limitFile.size ≤ 5242880 ∧
    (handleFileChange (exampleBrowser (.error ⟨""⟩)) ⟨some [limitFile]⟩ busyState).error = "" ∧
    (handleFileChange (exampleBrowser (.error ⟨""⟩)) ⟨some [limitFile]⟩ busyState).success = "" ∧
    (handleFileChange (exampleBrowser (.error ⟨""⟩)) ⟨some [limitFile]⟩ busyState).file
      = some limitFile ∧
    (handleFileChange (exampleBrowser (.error ⟨""⟩)) ⟨some [limitFile]⟩ busyState).previewUrl
      = blobUrl limitFile :=
  ⟨by decide, handleFileChange_accepts _ busyState limitFile [] (by decide)⟩

/-- C9: for every state, a change event that carries no file (`files` is `null`
or an empty list) makes `handleFileChange` store no file, set the preview to the
empty string and leave the error and success texts empty. -/
theorem handleFileChange_cleared (b : Browser) (s : State) (e : ChangeEvent)
    (hnone : e.files = none ∨ e.files = some []) :
    (handleFileChange b e s).file = none ∧
    (handleFileChange b e s).previewUrl = "" ∧
    (handleFileChange b e s).error = "" ∧
    (handleFileChange b e s).success = "" := by
  rcases hnone with h | h <;> simp [handleFileChange, ChangeEvent.selected, h]

/-- C9 at a concrete input: the input is emptied in a state that holds a file, a
preview, an error text and a success text. -/
theorem handleFileChange_cleared_witness :
    ((⟨some []⟩ : ChangeEvent).files = none ∨ (⟨some []⟩ : ChangeEvent).files = some []) ∧
    (handleFileChange (exampleBrowser (.error ⟨""⟩)) ⟨some []⟩ busyState).file = none ∧
    (handleFileChange (exampleBrowser (.error ⟨""⟩)) ⟨some []⟩ busyState).previewUrl = "" ∧
    (handleFileChange (exampleBrowser (.error ⟨""⟩)) ⟨some []⟩ busyState).error = "" ∧
    (handleFileChange (exampleBrowser (.error ⟨""⟩)) ⟨some []⟩ busyState).success = "" :=
  ⟨Or.inr rfl, handleFileChange_cleared _ busyState ⟨some []⟩ (Or.inr rfl)⟩

/-- C10, as stated, fails: after `smallFile` is selected and then the larger
`bigFile` is picked, the stored file is still `smallFile`, which is neither the
file of the last event nor empty. -/
theorem handleFileChange_keeps_previous :
    (handleFileChange (exampleBrowser (.error ⟨""⟩)) ⟨some [bigFile]⟩
      (handleFileChange (exampleBrowser (.error ⟨""⟩)) ⟨some [smallFile]⟩ State.initial)).file
        = some smallFile ∧
    (⟨some [bigFile]⟩ : ChangeEvent).selected = some bigFile ∧
    some smallFile ≠ some bigFile ∧
    some smallFile ≠ (none : Option File) := by
  decide

/-- C10, amended: after `handleFileChange` the stored file is empty when the
event carries no file, the file of the event when that file is at most
5,242,880 bytes, and the file stored before the event when the file of the event
is larger than 5,242,880 bytes. -/
theorem handleFileChange_file (b : Browser) (s : State) (e : ChangeEvent) :
    (e.selected = none → (handleFileChange b e s).file = none) ∧
    (∀ f, e.selected = some f → f.size ≤ 5242880 →
      (handleFileChange b e s).file = some f) ∧
    (∀ f, e.selected = some f → f.size > 5242880 →
      (handleFileChange b e s).file = s.file) := by
  refine ⟨?_, ?_, ?_⟩
  · intro h
    simp [handleFileChange, h]
  · intro f h hs
    have h2 : ¬ f.size > 5 * 1024 * 1024 := by omega
    simp [handleFileChange, h, h2]
  · intro f h hs
    have h2 : f.size > 5 * 1024 * 1024 := by omega
    simp [handleFileChange, h, h2]

/-! ## Upload: the guard -/

/-- C3: for every state and props, when no file is stored or `productId` is
falsy (not supplied: `undefined`, `null`, the empty string or 0), `handleUpload`
returns at once and leaves the world as it was: no request is passed to `fetch`,
`onUploaded` is not called, and no state field changes. -/
theorem handleUpload_guard (b : Browser) (p : Props) (w : World)
    (h : w.state.file = none ∨ p.productId.truthy = false) :
    handleUpload b p w = (.ok (), w) := by
  unfold handleUpload
  rcases h with h | h
  · rw [h]
  · cases hf : w.state.file <;> simp [h]

/-- C3 at a concrete input: a file is stored and the `productId` prop is
`undefined`. -/
theorem handleUpload_guard_witness :
    (readyWorld.state.file = none ∨ (JsVal.undefined).truthy = false) ∧
    handleUpload (exampleBrowser (.ok ⟨200, .ok ""⟩))
      { productId := .undefined, apiBaseUrl := defaultApiBaseUrl, token := none,
        onUploaded := some (fun _ => .ok ()) } readyWorld = (.ok (), readyWorld) :=
  ⟨Or.inr rfl, handleUpload_guard _ _ readyWorld (Or.inr rfl)⟩

/-- C10 amended, at concrete inputs: the oversize pick keeps the stored file,
the emptied input clears it. -/
theorem handleFileChange_file_witness :
    (handleFileChange (exampleBrowser (.error ⟨""⟩)) ⟨some [bigFile]⟩ busyState).file
      = some smallFile ∧
    (handleFileChange (exampleBrowser (.error ⟨""⟩)) ⟨none⟩ busyState).file = none ∧
    (handleFileChange (exampleBrowser (.error ⟨""⟩)) ⟨some [limitFile]⟩ busyState).file
      = some limitFile :=
  ⟨(handleFileChange_file _ busyState ⟨some [bigFile]⟩).2.2 bigFile rfl (by decide),
   (handleFileChange_file _ busyState ⟨none⟩).1 rfl,
   (handleFileChange_file _ busyState ⟨some [limitFile]⟩).2.1 limitFile rfl (by decide)⟩

/-! ## Upload: a successful response -/

/-- C4: for every upload started with a stored file and a truthy `productId`,
if the response has a 2xx status, its body parses to `d`, and the supplied
`onUploaded` returns on `d`, then `handleUpload` returns with the success text
`Image uploaded`, an empty error text, and `onUploaded` called exactly once more,
with `d`. -/
theorem handleUpload_success (b : Browser) (p : Props) (w : World) (f : File)
    (pid : String) (res : Response) (t : String) (d : JsVal)
    (cb : JsVal → Except JsError Unit)
    (hfile : w.state.file = some f) (htruthy : p.productId.truthy = true)
    (hpid : p.productId.toStr = .ok pid)
    (hfetch : b.fetch (uploadRequest p f pid) = .ok res) (hok : res.ok = true)
    (hbody : res.body = .ok t) (hparse : b.jsonParse t = .ok d)
    (hcb : p.onUploaded = some cb) (hret : cb d = .ok ()) :
    (handleUpload b p w).1 = .ok () ∧
    (handleUpload b p w).2.state.success = "Image uploaded" ∧
    (handleUpload b p w).2.state.error = "" ∧
    (handleUpload b p w).2.uploaded = w.uploaded ++ [d] ∧
    (handleUpload b p w).2.requests = w.requests ++ [uploadRequest p f pid] := by
  simp [handleUpload, hfile, htruthy, tryFinallyW, tryCatchW, uploadTry, hpid, hfetch, hok,
    Response.json, hbody, hparse, hcb, hret, World.setIsUploading, World.setError,
    World.setSuccess, World.await, World.issue, World.call]

/-- C4 at the concrete input of the specification: status 200 and the body
`uploadedBody`; the callback is called once, with the parsed object. -/
theorem handleUpload_success_witness :
    (Response.ok ⟨200, .ok uploadedBody⟩ = true ∧
      exampleParse uploadedBody = .ok uploadedData) ∧
    (handleUpload (exampleBrowser (.ok ⟨200, .ok uploadedBody⟩))
        (exampleProps (some (fun _ => .ok ()))) readyWorld).1 = .ok () ∧
    (handleUpload (exampleBrowser (.ok ⟨200, .ok uploadedBody⟩))
        (exampleProps (some (fun _ => .ok ()))) readyWorld).2.state.success = "Image uploaded" ∧
    (handleUpload (exampleBrowser (.ok ⟨200, .ok uploadedBody⟩))
        (exampleProps (some (fun _ => .ok ()))) readyWorld).2.state.error = "" ∧
    (handleUpload (exampleBrowser (.ok ⟨200, .ok uploadedBody⟩))
        (exampleProps (some (fun _ => .ok ()))) readyWorld).2.uploaded = [] ++ [uploadedData] ∧
    (handleUpload (exampleBrowser (.ok ⟨200, .ok uploadedBody⟩))
        (exampleProps (some (fun _ => .ok ()))) readyWorld).2.requests
      = [] ++ [uploadRequest (exampleProps (some (fun _ => .ok ()))) smallFile "7"] :=
  ⟨⟨rfl, rfl⟩,
   handleUpload_success (exampleBrowser (.ok ⟨200, .ok uploadedBody⟩))
     (exampleProps (some (fun _ => .ok ()))) readyWorld smallFile "7"
     ⟨200, .ok uploadedBody⟩ uploadedBody uploadedData (fun _ => .ok ())
     rfl rfl rfl rfl rfl rfl rfl rfl rfl⟩

/-! ## Upload: a response with a non-success status -/

/-- The helper `safeError` returns on every response: no exception leaves it. -/
lemma safeError_returns (parse : String → Except JsError JsVal) (res : Response) :
    ∃ v, safeError parse res = .ok v := by
  unfold safeError tryCatchE
  split
  · exact ⟨_, rfl⟩
  · exact ⟨_, rfl⟩

/-- The helper `safeError` on a body that cannot be read. -/
lemma safeError_unreadable (parse : String → Except JsError JsVal) (res : Response)
    (e : JsError) (hbody : res.body = .error e) :
    safeError parse res = .ok (.str "") := by
  simp [safeError, tryCatchE, Response.text, hbody]

/-- The helper `safeError` on a body that is not JSON. -/
lemma safeError_text (parse : String → Except JsError JsVal) (res : Response)
    (t : String) (e : JsError) (hbody : res.body = .ok t) (hparse : parse t = .error e) :
    safeError parse res = .ok (.str t) := by
  simp [safeError, tryCatchE, Response.text, hbody, hparse]

/-- The helper `safeError` on a body that parses to an object. -/
lemma safeError_obj (parse : String → Except JsError JsVal) (res : Response)
    (t : String) (props : List (String × JsVal)) (hbody : res.body = .ok t)
    (hparse : parse t = .ok (.obj props)) :
    safeError parse res = .ok
      (if (lookupProp "error" props).truthy then lookupProp "error" props
       else if (lookupProp "detail" props).truthy then lookupProp "detail" props
       else .str t) := by
  simp only [safeError, tryCatchE, Response.text, hbody, hparse, messageOf, JsVal.getProp]
  split_ifs <;> rfl

/-- The generic message of line 51 is never the empty string. -/
lemma fallback_ne_empty (x : String) : "Upload failed (" ++ x ++ ")" ≠ "" := by
  intro h
  have h2 := congrArg String.length h
  simp only [String.length_append] at h2
  have h3 : ")".length = 1 := by decide
  have h4 : "".length = 0 := by decide
  omega

/-- The state `handleUpload` leaves after a response with a non-success status:
the error text is the message of the thrown `Error`, the success text is empty. -/
lemma handleUpload_failed (b : Browser) (p : Props) (w : World) (f : File)
    (pid : String) (res : Response) (msg : JsVal)
    (hfile : w.state.file = some f) (htruthy : p.productId.truthy = true)
    (hpid : p.productId.toStr = .ok pid)
    (hfetch : b.fetch (uploadRequest p f pid) = .ok res) (hok : res.ok = false)
    (hmsg : safeError b.jsonParse res = .ok msg) :
    (handleUpload b p w).1 = .ok () ∧
    (handleUpload b p w).2.state.error = errorMessage (throwNewError
      (if msg.truthy then msg
       else .str ("Upload failed (" ++ toString res.status ++ ")"))) ∧
    (handleUpload b p w).2.state.success = "" := by
  simp [handleUpload, hfile, htruthy, tryFinallyW, tryCatchW, uploadTry, hpid, hfetch, hok,
    hmsg, World.setIsUploading, World.setError, World.setSuccess, World.await, World.issue]

/-- C5, as stated, fails: on status 400 with the body `flaggedBody`, whose
`error` field is the boolean `true` (not a string) and whose `detail` field is
the non-empty string `bad format`, the error text is `true`, not `bad format`. -/
theorem handleUpload_error_field_not_string :
    Response.ok ⟨400, .ok flaggedBody⟩ = false ∧
    exampleParse flaggedBody
      = .ok (.obj [("error", .bool true), ("detail", .str "bad format")]) ∧
    (∀ m, lookupProp "error" [("error", .bool true), ("detail", .str "bad format")]
      ≠ .str m) ∧
    lookupProp "detail" [("error", .bool true), ("detail", .str "bad format")]
      = .str "bad format" ∧
    (handleUpload (exampleBrowser (.ok ⟨400, .ok flaggedBody⟩)) (exampleProps none)
      readyWorld).2.state.error = "true" ∧
    (handleUpload (exampleBrowser (.ok ⟨400, .ok flaggedBody⟩)) (exampleProps none)
      readyWorld).2.state.error ≠ "bad format" := by
  refine ⟨rfl, rfl, ?_, rfl, rfl, by decide⟩
  intro m h
  simp [lookupProp] at h

/-- C5, amended: for every upload whose response has a non-success status and a
body that parses to an object, the error text equals the `error` field when that
field is a non-empty string; it equals the `detail` field when the `error` field
is absent or falsy and `detail` is a non-empty string; the success text is
empty. -/
theorem handleUpload_error_field (b : Browser) (p : Props) (w : World) (f : File)
    (pid : String) (res : Response) (t : String) (props : List (String × JsVal))
    (hfile : w.state.file = some f) (htruthy : p.productId.truthy = true)
    (hpid : p.productId.toStr = .ok pid)
    (hfetch : b.fetch (uploadRequest p f pid) = .ok res) (hok : res.ok = false)
    (hbody : res.body = .ok t) (hparse : b.jsonParse t = .ok (.obj props)) :
    (∀ m, lookupProp "error" props = .str m → m ≠ "" →
      (handleUpload b p w).2.state.error = m) ∧
    ((lookupProp "error" props).truthy = false →
      ∀ m, lookupProp "detail" props = .str m → m ≠ "" →
        (handleUpload b p w).2.state.error = m) ∧
    (handleUpload b p w).2.state.success = "" := by
  obtain ⟨_, herr, hsucc⟩ := handleUpload_failed b p w f pid res _ hfile htruthy hpid hfetch
    hok (safeError_obj b.jsonParse res t props hbody hparse)
  refine ⟨?_, ?_, hsucc⟩
  · intro m hm hne
    rw [herr, hm]
    simp [JsVal.truthy, hne, throwNewError, JsVal.toStr, errorMessage]
  · intro hfalsy m hm hne
    rw [herr, hfalsy, hm]
    simp [JsVal.truthy, hne, throwNewError, JsVal.toStr, errorMessage]

/-- C5 amended, at concrete inputs: status 400 with the body `detailBody` shows
`bad format`; with the body `bothBody` the `error` field wins. -/
theorem handleUpload_error_field_witness :
    (handleUpload (exampleBrowser (.ok ⟨400, .ok detailBody⟩)) (exampleProps none)
      readyWorld).2.state.error = "bad format" ∧
    (handleUpload (exampleBrowser (.ok ⟨400, .ok bothBody⟩)) (exampleProps none)
      readyWorld).2.state.error = "too large" ∧
    (handleUpload (exampleBrowser (.ok ⟨400, .ok detailBody⟩)) (exampleProps none)
      readyWorld).2.state.success = "" :=
  ⟨(handleUpload_error_field (exampleBrowser (.ok ⟨400, .ok detailBody⟩)) (exampleProps none)
      readyWorld smallFile "7" ⟨400, .ok detailBody⟩ detailBody [("detail", .str "bad format")]
      rfl rfl rfl rfl rfl rfl rfl).2.1 rfl "bad format" rfl (by decide),
   (handleUpload_error_field (exampleBrowser (.ok ⟨400, .ok bothBody⟩)) (exampleProps none)
      readyWorld smallFile "7" ⟨400, .ok bothBody⟩ bothBody
      [("error", .str "too large"), ("detail", .str "bad format")]
      rfl rfl rfl rfl rfl rfl rfl).1 "too large" rfl (by decide),
   (handleUpload_error_field (exampleBrowser (.ok ⟨400, .ok detailBody⟩)) (exampleProps none)
      readyWorld smallFile "7" ⟨400, .ok detailBody⟩ detailBody [("detail", .str "bad format")]
      rfl rfl rfl rfl rfl rfl rfl).2.2⟩

/-- C6: for every upload whose response has a non-success status, `safeError`
returns (it never throws) and returns the empty string when the body cannot be
read; the error text is the raw body when the body is readable, not empty and not
JSON, and is `Upload failed (status)` when the body is empty or cannot be read. -/
theorem handleUpload_unstructured (b : Browser) (p : Props) (w : World) (f : File)
    (pid : String) (res : Response)
    (hfile : w.state.file = some f) (htruthy : p.productId.truthy = true)
    (hpid : p.productId.toStr = .ok pid)
    (hfetch : b.fetch (uploadRequest p f pid) = .ok res) (hok : res.ok = false) :
    (∀ parse r, ∃ v, safeError parse r = .ok v) ∧
    (∀ parse r e, Response.body r = .error e → safeError parse r = .ok (.str "")) ∧
    (∀ e, res.body = .error e →
      (handleUpload b p w).2.state.error
        = "Upload failed (" ++ toString res.status ++ ")") ∧
    (∀ t e, res.body = .ok t → b.jsonParse t = .error e → t ≠ "" →
      (handleUpload b p w).2.state.error = t) ∧
    (∀ e, res.body = .ok "" → b.jsonParse "" = .error e →
      (handleUpload b p w).2.state.error
        = "Upload failed (" ++ toString res.status ++ ")") := by
  refine ⟨safeError_returns, safeError_unreadable, ?_, ?_, ?_⟩
  · intro e hbody
    obtain ⟨_, herr, _⟩ := handleUpload_failed b p w f pid res _ hfile htruthy hpid hfetch
      hok (safeError_unreadable b.jsonParse res e hbody)
    rw [herr]
    simp [JsVal.truthy, throwNewError, JsVal.toStr, errorMessage, fallback_ne_empty]
  · intro t e hbody hparse hne
    obtain ⟨_, herr, _⟩ := handleUpload_failed b p w f pid res _ hfile htruthy hpid hfetch
      hok (safeError_text b.jsonParse res t e hbody hparse)
    rw [herr]
    simp [JsVal.truthy, hne, throwNewError, JsVal.toStr, errorMessage]
  · intro e hbody hparse
    obtain ⟨_, herr, _⟩ := handleUpload_failed b p w f pid res _ hfile htruthy hpid hfetch
      hok (safeError_text b.jsonParse res "" e hbody hparse)
    rw [herr]
    simp [JsVal.truthy, throwNewError, JsVal.toStr, errorMessage, fallback_ne_empty]

/-- C6 at the concrete inputs of the specification: status 500 with the body
`server exploded` shows that text; status 500 with an empty body, or with a body
that cannot be read, shows `Upload failed (500)`. -/
theorem handleUpload_unstructured_witness :
    (handleUpload (exampleBrowser (.ok ⟨500, .ok "server exploded"⟩)) (exampleProps none)
      readyWorld).2.state.error = "server exploded" ∧
    (handleUpload (exampleBrowser (.ok ⟨500, .ok ""⟩)) (exampleProps none)
      readyWorld).2.state.error = "Upload failed (" ++ toString 500 ++ ")" ∧
    (handleUpload (exampleBrowser (.ok ⟨500, .error ⟨"body stream already read"⟩⟩))
      (exampleProps none) readyWorld).2.state.error = "Upload failed (" ++ toString 500 ++ ")" ∧
    "Upload failed (" ++ toString 500 ++ ")" = "Upload failed (500)" :=
  ⟨(handleUpload_unstructured (exampleBrowser (.ok ⟨500, .ok "server exploded"⟩))
      (exampleProps none) readyWorld smallFile "7" ⟨500, .ok "server exploded"⟩
      rfl rfl rfl rfl rfl).2.2.2.1 "server exploded" _ rfl rfl (by decide),
   (handleUpload_unstructured (exampleBrowser (.ok ⟨500, .ok ""⟩))
      (exampleProps none) readyWorld smallFile "7" ⟨500, .ok ""⟩
      rfl rfl rfl rfl rfl).2.2.2.2 _ rfl rfl,
   (handleUpload_unstructured (exampleBrowser (.ok ⟨500, .error ⟨"body stream already read"⟩⟩))
      (exampleProps none) readyWorld smallFile "7" ⟨500, .error ⟨"body stream already read"⟩⟩
      rfl rfl rfl rfl rfl).2.2.1 _ rfl,
   by decide⟩

/-! ## Upload: an exception after the success text is set -/

/-- C7 on the code: with status 200, an empty body and a completion callback,
`res.json()` throws; `handleUpload` returns and the error text is the message of
the exception, but the success text is still `Image uploaded`, so both texts are
on screen.  The same holds when the body parses and the callback throws. -/
theorem handleUpload_exception_keeps_success :
    (handleUpload (exampleBrowser (.ok ⟨200, .ok ""⟩)) (exampleProps (some (fun _ => .ok ())))
      readyWorld).1 = .ok () ∧
    (handleUpload (exampleBrowser (.ok ⟨200, .ok ""⟩)) (exampleProps (some (fun _ => .ok ())))
      readyWorld).2.state.error = "Unexpected end of JSON input" ∧
    (handleUpload (exampleBrowser (.ok ⟨200, .ok ""⟩)) (exampleProps (some (fun _ => .ok ())))
      readyWorld).2.state.success = "Image uploaded" ∧
    (handleUpload (exampleBrowser (.ok ⟨200, .ok uploadedBody⟩))
      (exampleProps (some (fun _ => .error ⟨"render failed"⟩))) readyWorld).1 = .ok () ∧
    (handleUpload (exampleBrowser (.ok ⟨200, .ok uploadedBody⟩))
      (exampleProps (some (fun _ => .error ⟨"render failed"⟩))) readyWorld).2.state.error
        = "render failed" ∧
    (handleUpload (exampleBrowser (.ok ⟨200, .ok uploadedBody⟩))
      (exampleProps (some (fun _ => .error ⟨"render failed"⟩))) readyWorld).2.state.success
        = "Image uploaded" :=
  ⟨rfl, rfl, rfl, rfl, rfl, rfl⟩

/-! ## Upload: the uploading flag -/

/-- The `try` block of `handleUpload` changes neither the uploading flag nor the
stored file, in the final state and in every state recorded at an `await`, and
it records such a state whenever it issues a request. -/
lemma uploadTry_frame (b : Browser) (p : Props) (f : File) (w : World) :
    ∃ snaps, (uploadTry b p f w).2.pending = w.pending ++ snaps ∧
      (∀ s ∈ snaps, s.isUploading = w.state.isUploading ∧ s.file = w.state.file) ∧
      ((uploadTry b p f w).2.requests ≠ w.requests → snaps ≠ []) ∧
      (uploadTry b p f w).2.state.isUploading = w.state.isUploading ∧
      (uploadTry b p f w).2.state.file = w.state.file := by
  unfold uploadTry
  cases h1 : p.productId.toStr with
  | error e => exact ⟨[], by simp⟩
  | ok pid =>
    dsimp only
    cases h2 : b.fetch (uploadRequest p f pid) with
    | error e => exact ⟨[w.state], by simp [World.await, World.issue]⟩
    | ok res =>
      dsimp only
      cases h3 : res.ok with
      | false =>
        cases h4 : safeError b.jsonParse res with
        | error e => exact ⟨[w.state, w.state], by simp [World.await, World.issue]⟩
        | ok msg => exact ⟨[w.state, w.state], by simp [World.await, World.issue]⟩
      | true =>
        cases h5 : p.onUploaded with
        | none => exact ⟨[w.state], by simp [World.await, World.issue, World.setSuccess]⟩
        | some cb =>
          cases h6 : Response.json b.jsonParse res with
          | error e =>
            exact ⟨[w.state, { w.state with success := "Image uploaded" }],
              by simp [World.await, World.issue, World.setSuccess]⟩
          | ok data =>
            cases h7 : cb data with
            | error e =>
              exact ⟨[w.state, { w.state with success := "Image uploaded" }],
                by simp [World.await, World.issue, World.setSuccess, World.call, h7]⟩
            | ok u =>
              exact ⟨[w.state, { w.state with success := "Image uploaded" }],
                by simp [World.await, World.issue, World.setSuccess, World.call, h7]⟩

/-- C8: for every upload started with a stored file and a truthy `productId`,
whatever `fetch`, the body, the parser and the callback do: every state on
screen while `handleUpload` waits has the uploading flag set and the button
disabled (and there is such a state as soon as a request is issued); when
`handleUpload` settles it has returned, the uploading flag is false, the file is
still stored and the button is enabled again. -/
theorem handleUpload_uploading_flag (b : Browser) (p : Props) (w : World) (f : File)
    (hfile : w.state.file = some f) (htruthy : p.productId.truthy = true) :
    ∃ snaps, (handleUpload b p w).2.pending = w.pending ++ snaps ∧
      (∀ s ∈ snaps, s.isUploading = true ∧ buttonDisabled p s = true) ∧
      ((handleUpload b p w).2.requests ≠ w.requests → snaps ≠ []) ∧
      (handleUpload b p w).1 = .ok () ∧
      (handleUpload b p w).2.state.isUploading = false ∧
      (handleUpload b p w).2.state.file = some f ∧
      buttonDisabled p (handleUpload b p w).2.state = false := by
  obtain ⟨snaps, hp, hs, hr, hu, hf⟩ :=
    uploadTry_frame b p f (((w.setIsUploading true).setError "").setSuccess "")
  refine ⟨snaps, ?_⟩
  simp only [handleUpload, hfile, htruthy, tryFinallyW, tryCatchW]
  cases hres : uploadTry b p f (((w.setIsUploading true).setError "").setSuccess "") with
  | mk r w1 =>
    rw [hres] at hp hr hu hf
    simp only [World.setIsUploading, World.setError, World.setSuccess] at hp hs hr hu hf
    have hdis : ∀ s ∈ snaps, s.isUploading = true ∧ buttonDisabled p s = true := by
      intro s hmem
      refine ⟨(hs s hmem).1, ?_⟩
      simp [buttonDisabled, (hs s hmem).1]
    cases r with
    | error e =>
      simp only [World.setIsUploading, World.setError]
      refine ⟨hp, hdis, hr, rfl, rfl, by simp [hf, hfile], ?_⟩
      simp [buttonDisabled, hf, hfile, htruthy]
    | ok u =>
      simp only [World.setIsUploading]
      refine ⟨hp, hdis, hr, rfl, rfl, by simp [hf, hfile], ?_⟩
      simp [buttonDisabled, hf, hfile, htruthy]

/-- C8 at a concrete input: the request is rejected (`Failed to fetch`); the one
state on screen during the wait has the flag set, the final state has it
cleared. -/
theorem handleUpload_uploading_flag_witness :
    (readyWorld.state.file = some smallFile ∧ (JsVal.num 7).truthy = true) ∧
    ∃ snaps, (handleUpload (exampleBrowser (.error ⟨"Failed to fetch"⟩)) (exampleProps none)
        readyWorld).2.pending = readyWorld.pending ++ snaps ∧
      (∀ s ∈ snaps, s.isUploading = true ∧ buttonDisabled (exampleProps none) s = true) ∧
      ((handleUpload (exampleBrowser (.error ⟨"Failed to fetch"⟩)) (exampleProps none)
        readyWorld).2.requests ≠ readyWorld.requests → snaps ≠ []) ∧
      (handleUpload (exampleBrowser (.error ⟨"Failed to fetch"⟩)) (exampleProps none)
        readyWorld).1 = .ok () ∧
      (handleUpload (exampleBrowser (.error ⟨"Failed to fetch"⟩)) (exampleProps none)
        readyWorld).2.state.isUploading = false ∧
      (handleUpload (exampleBrowser (.error ⟨"Failed to fetch"⟩)) (exampleProps none)
        readyWorld).2.state.file = some smallFile ∧
      buttonDisabled (exampleProps none)
        (handleUpload (exampleBrowser (.error ⟨"Failed to fetch"⟩)) (exampleProps none)
          readyWorld).2.state = false :=
  ⟨⟨rfl, rfl⟩,
   handleUpload_uploading_flag (exampleBrowser (.error ⟨"Failed to fetch"⟩)) (exampleProps none)
     readyWorld smallFile rfl rfl⟩

end ProductImageUploader
